import Mathlib

/-!
# Verification of the study-helper backend (auth + problem store)

Shallow embedding of the backend's core:
* Python strings are modelled as `PyStr := List Nat` (sequences of Unicode
  code points, which is exactly Python's `str` model).
* The `json` standard-library calls (`json.dumps` on lists of strings,
  `json.loads` on arbitrary text) are modelled by an executable
  serializer/parser pair, faithful to CPython's `json` module on the
  value fragment this backend ever touches (null / true / false / numbers
  kept as lexemes / strings with full escape handling including surrogate
  pairs / arrays / objects; `NaN`, `Infinity`, `-Infinity` accepted as in
  CPython).
* passlib's `CryptContext` and python-jose's `jwt` are modelled from their
  documented behaviour, with the keyed cryptographic cores abstracted as
  parameters (their outputs are opaque to every property proved here).
* The SQLAlchemy-backed store is modelled as in-memory lists of records;
  ids and timestamps generated by the store are explicit parameters.
-/

/-- A Python string: a list of Unicode code points (`0 ≤ c < 0x110000`,
surrogates representable, exactly like CPython's `str`). -/
abbrev PyStr := List Nat

/-- Whether `c` is a Unicode scalar value (a valid code point that is
not a UTF-16 surrogate).  Strings decoded from UTF-8 transport (every HTTP
form field / JSON body reaching this backend) consist only of such points. -/
def isScalar (c : Nat) : Bool := c < 55296 || (57344 ≤ c && c < 1114112)

/-- Every code point of the string is a Unicode scalar value. -/
def strScalar (s : PyStr) : Bool := s.all isScalar

/-- Every string of the list consists of Unicode scalar values. -/
def listScalar (L : List PyStr) : Bool := L.all strScalar

/-- The scalar check lifted over an optional list (vacuously true when absent). -/
def optListScalar : Option (List PyStr) → Bool
  | none => true
  | some L => listScalar L

/-! ## Model of `json.dumps` on lists of strings

`crud.create_problem` and `crud.update_problem` call `json.dumps` only on
lists of strings.  CPython's default encoder (`ensure_ascii=True`,
separator `", "`) emits `"` and `\` and the five short escapes, keeps
printable ASCII literal, and escapes everything else as `\uXXXX`
(surrogate pairs for astral code points). -/

/-- Lower-case hex digit character code of `n < 16` (CPython uses `%04x`). -/
def hexCh (n : Nat) : Nat := if n < 10 then 48 + n else 87 + n

/-- The four hex digit character codes of `n % 0x10000`, most significant
first (the `XXXX` of a `\uXXXX` escape). -/
def hex4 (n : Nat) : PyStr :=
  [hexCh (n / 4096 % 16), hexCh (n / 256 % 16), hexCh (n / 16 % 16), hexCh (n % 16)]

/-- CPython `json` escaping of one code point inside a string literal
(`py_encode_basestring_ascii`): literal for printable ASCII other than
`"` and `\`, short escapes for the usual controls, `\uXXXX` otherwise,
surrogate pairs for code points `≥ 0x10000`. -/
def escapeChar (c : Nat) : PyStr :=
  if c = 34 then [92, 34]
  else if c = 92 then [92, 92]
  else if c = 8 then [92, 98]
  else if c = 12 then [92, 102]
  else if c = 10 then [92, 110]
  else if c = 13 then [92, 114]
  else if c = 9 then [92, 116]
  else if 32 ≤ c ∧ c ≤ 126 then [c]
  else if c < 65536 then 92 :: 117 :: hex4 c
  else (92 :: 117 :: hex4 (55296 + (c - 65536) / 1024)) ++
       (92 :: 117 :: hex4 (56320 + (c - 65536) % 1024))

/-- Escape a whole string body, code point by code point. -/
def escStr : PyStr → PyStr
  | [] => []
  | c :: s => escapeChar c ++ escStr s

/-- Model of `json.dumps` of a single string: quote, escaped body, quote. -/
def dumpsStr (s : PyStr) : PyStr := 34 :: escStr s ++ [34]

/-- The comma-separated element list of `json.dumps` of a list of strings
(CPython's default item separator is `", "`). -/
def elemsChars : List PyStr → PyStr
  | [] => []
  | [s] => dumpsStr s
  | s :: s2 :: t => dumpsStr s ++ 44 :: 32 :: elemsChars (s2 :: t)

/-- Model of `json.dumps` of a list of strings (`json.dumps([])` is `"[]"`). -/
def dumpsStrList : List PyStr → PyStr
  | [] => [91, 93]
  | s :: t => 91 :: elemsChars (s :: t) ++ [93]

/-! ## Model of `json.loads`

A faithful executable parser for CPython's `json.loads` (strict mode,
default flags).  Numeric lexemes are kept verbatim inside `Json.num`:
no operation of this backend ever inspects a numeric value, only whether
a parse succeeded and whether the result is a list of strings. -/

/-- A parsed JSON value.  Numbers (including the CPython-accepted
`NaN` / `Infinity` / `-Infinity`) are kept as their source lexeme. -/
inductive Json
  | null
  | bool (b : Bool)
  | num (lexeme : PyStr)
  | str (s : PyStr)
  | arr (elems : List Json)
  | obj (members : List (PyStr × Json))

/-- JSON whitespace skipping (`[ \t\n\r]*`, as in CPython's `WHITESPACE`). -/
def skipWs : PyStr → PyStr
  | [] => []
  | c :: r => if c = 32 ∨ c = 9 ∨ c = 10 ∨ c = 13 then skipWs r else c :: r

/-- Value of one hex digit character (`0-9a-fA-F`), as in `\uXXXX` escapes. -/
def hexVal (c : Nat) : Option Nat :=
  if 48 ≤ c && c ≤ 57 then some (c - 48)
  else if 97 ≤ c && c ≤ 102 then some (c - 87)
  else if 65 ≤ c && c ≤ 70 then some (c - 55)
  else none

/-- Prepend a decoded code point to a string-parse result. -/
def consRes (c : Nat) : Option (PyStr × PyStr) → Option (PyStr × PyStr)
  | none => none
  | some (s, r) => some (c :: s, r)

/-- CPython `_decode_uXXXX`: the four hex digits after a `\u`, with the
remaining input; `none` (an error) on bad or missing digits. -/
def readU : PyStr → Option (Nat × PyStr)
  | a :: b :: c :: d :: r =>
    (match hexVal a, hexVal b, hexVal c, hexVal d with
     | some x, some y, some z, some w =>
       some (((x * 16 + y) * 16 + z) * 16 + w, r)
     | _, _, _, _ => none)
  | _ => none

/-- CPython `py_scanstring`'s high-surrogate continuation: after an escaped
high surrogate `n`, peek for a following `\u` escape; recombine when it
holds a low surrogate, keep `n` alone (not consuming the peeked escape)
when it holds something else, and fail on a malformed peeked escape. -/
def surrogatePair (n : Nat) : PyStr → Option (Nat × PyStr)
  | 92 :: 117 :: rest4 =>
    (match readU rest4 with
     | none => none
     | some (m, r4) =>
       if 56320 ≤ m ∧ m < 57344 then
         some (65536 + (n - 55296) * 1024 + (m - 56320), r4)
       else some (n, 92 :: 117 :: rest4))
  | other => some (n, other)

/-- One step of CPython `py_scanstring` at a non-terminator position
(strict mode): decode the next code point — a literal character (control
characters are rejected), a short escape, or a `\uXXXX` escape, where a
high surrogate followed by an escaped low surrogate is recombined into one
astral code point and a lone surrogate escape is kept as-is, exactly the
CPython behaviour — and return it with the remaining input.  `none` is a
`JSONDecodeError` (invalid or truncated escape, control character, end of
input). -/
def decodeOne : PyStr → Option (Nat × PyStr)
  | [] => none
  | c :: r =>
    if c = 34 then none
    else if c = 92 then
      match r with
      | [] => none
      | e :: r2 =>
        if e = 117 then
          match readU r2 with
          | none => none
          | some (n, r3) =>
            if 55296 ≤ n ∧ n < 56320 then surrogatePair n r3
            else some (n, r3)
        else if e = 34 then some (34, r2)
        else if e = 92 then some (92, r2)
        else if e = 47 then some (47, r2)
        else if e = 98 then some (8, r2)
        else if e = 102 then some (12, r2)
        else if e = 110 then some (10, r2)
        else if e = 114 then some (13, r2)
        else if e = 116 then some (9, r2)
        else none
    else if c < 32 then none
    else some (c, r)

/-- CPython `py_scanstring` after the opening quote, strict mode: decode
code points with `decodeOne` until the closing quote, returning the body
and the input after the quote.  Recursion is by explicit fuel so that the
definition is structural (hence kernel-evaluable); one unit is spent per
decoded code point, so any fuel exceeding the input length is enough
(callers pass `length + 1`). -/
def parseStringBody : Nat → PyStr → Option (PyStr × PyStr)
  | 0, _ => none
  | _ + 1, [] => none
  | fuel + 1, c :: r =>
    if c = 34 then some ([], r)
    else
      match decodeOne (c :: r) with
      | some (cp, rest) => consRes cp (parseStringBody fuel rest)
      | none => none

/-- ASCII decimal digit test. -/
def isDigit (c : Nat) : Bool := 48 ≤ c && c ≤ 57

/-- Longest run of decimal digits and the remainder. -/
def digitSpan : PyStr → PyStr × PyStr
  | [] => ([], [])
  | c :: r =>
    if isDigit c then
      let p := digitSpan r
      (c :: p.1, p.2)
    else ([], c :: r)

/-- Integer part of a JSON number (`0` or nonzero digit followed by digits),
as in CPython's `NUMBER_RE`. -/
def parseIntPart : PyStr → Option (PyStr × PyStr)
  | [] => none
  | c :: r =>
    if c = 48 then some ([48], r)
    else if 49 ≤ c && c ≤ 57 then
      let p := digitSpan r
      some (c :: p.1, p.2)
    else none

/-- Optional fraction group `(\.\d+)?`: when it does not match, the input
is left untouched (the regex simply does not consume it). -/
def parseFracPart : PyStr → PyStr × PyStr
  | 46 :: r =>
    match digitSpan r with
    | (d :: ds, rest) => (46 :: d :: ds, rest)
    | ([], _) => ([], 46 :: r)
  | s => ([], s)

/-- Optional exponent group `([eE][-+]?\d+)?`, again non-consuming when it
does not match. -/
def parseExpPart (s : PyStr) : PyStr × PyStr :=
  match s with
  | e :: r =>
    if e = 101 || e = 69 then
      match r with
      | 43 :: r2 =>
        (match digitSpan r2 with
         | (d :: ds, rest) => (e :: 43 :: d :: ds, rest)
         | ([], _) => ([], s))
      | 45 :: r2 =>
        (match digitSpan r2 with
         | (d :: ds, rest) => (e :: 45 :: d :: ds, rest)
         | ([], _) => ([], s))
      | r2 =>
        (match digitSpan r2 with
         | (d :: ds, rest) => (e :: d :: ds, rest)
         | ([], _) => ([], s))
    else ([], s)
  | [] => ([], s)

/-- CPython `NUMBER_RE` longest match: returns the matched lexeme and the
remainder, or `none` when no number starts here. -/
def parseNumber (s : PyStr) : Option (PyStr × PyStr) :=
  let sp : PyStr × PyStr := match s with
    | 45 :: r => ([45], r)
    | _ => ([], s)
  match parseIntPart sp.2 with
  | none => none
  | some (ip, s2) =>
    let fp := parseFracPart s2
    let ep := parseExpPart fp.2
    some (sp.1 ++ ip ++ fp.1 ++ ep.1, ep.2)

/-- Consume an expected literal continuation (e.g. `ull` after the `n` of
`null`), or fail like CPython's scanner. -/
def stripLit : PyStr → PyStr → Option PyStr
  | [], r => some r
  | l :: ls, c :: r => if l = c then stripLit ls r else none
  | _ :: _, [] => none

mutual

/-- CPython `py_make_scanner` at a value start position (whitespace already
skipped), with explicit recursion fuel; every recursive step spends one
unit, so any fuel at least twice the input length is enough (see `loads`).
Dispatch order and accepted syntax follow `json.scanner`: strings, objects,
arrays, the three literals, numbers, then `NaN` / `Infinity` / `-Infinity`. -/
def parseValue : Nat → PyStr → Option (Json × PyStr)
  | 0, _ => none
  | _ + 1, [] => none
  | fuel + 1, c :: r =>
    if c = 34 then
      match parseStringBody (r.length + 1) r with
      | some (s, rest) => some (.str s, rest)
      | none => none
    else if c = 123 then
      match skipWs r with
      | 125 :: rest => some (.obj [], rest)
      | r2 =>
        match parseMembers fuel r2 with
        | some (ms, rest) => some (.obj ms, rest)
        | none => none
    else if c = 91 then
      match skipWs r with
      | 93 :: rest => some (.arr [], rest)
      | r2 =>
        match parseElems fuel r2 with
        | some (xs, rest) => some (.arr xs, rest)
        | none => none
    else if c = 110 then
      match stripLit [117, 108, 108] r with
      | some rest => some (.null, rest)
      | none => none
    else if c = 116 then
      match stripLit [114, 117, 101] r with
      | some rest => some (.bool true, rest)
      | none => none
    else if c = 102 then
      match stripLit [97, 108, 115, 101] r with
      | some rest => some (.bool false, rest)
      | none => none
    else
      match parseNumber (c :: r) with
      | some (lex, rest) => some (.num lex, rest)
      | none =>
        if c = 78 then
          match stripLit [97, 78] r with
          | some rest => some (.num [78, 97, 78], rest)
          | none => none
        else if c = 73 then
          match stripLit [110, 102, 105, 110, 105, 116, 121] r with
          | some rest => some (.num [73, 110, 102, 105, 110, 105, 116, 121], rest)
          | none => none
        else if c = 45 then
          match stripLit [73, 110, 102, 105, 110, 105, 116, 121] r with
          | some rest =>
            some (.num [45, 73, 110, 102, 105, 110, 105, 116, 121], rest)
          | none => none
        else none

/-- Array elements from the first value position onward: value, then `,`
(more elements) or `]` (done), whitespace-tolerant — CPython `JSONArray`. -/
def parseElems : Nat → PyStr → Option (List Json × PyStr)
  | 0, _ => none
  | fuel + 1, input =>
    match parseValue fuel input with
    | none => none
    | some (v, r) =>
      match skipWs r with
      | 44 :: r2 =>
        (match parseElems fuel (skipWs r2) with
         | some (xs, rest) => some (v :: xs, rest)
         | none => none)
      | 93 :: r2 => some ([v], r2)
      | _ => none

/-- Object members from the first key position onward: `"key" : value`,
then `,` or `}` — CPython `JSONObject` (strict). -/
def parseMembers : Nat → PyStr → Option (List (PyStr × Json) × PyStr)
  | 0, _ => none
  | fuel + 1, input =>
    match input with
    | 34 :: r =>
      (match parseStringBody (r.length + 1) r with
       | none => none
       | some (k, r2) =>
         match skipWs r2 with
         | 58 :: r3 =>
           (match parseValue fuel (skipWs r3) with
            | none => none
            | some (v, r4) =>
              match skipWs r4 with
              | 44 :: r5 =>
                (match parseMembers fuel (skipWs r5) with
                 | some (ms, rest) => some ((k, v) :: ms, rest)
                 | none => none)
              | 125 :: r5 => some ([(k, v)], r5)
              | _ => none)
         | _ => none)
    | _ => none

end

/-- Model of `json.loads`: skip leading whitespace, parse one value, require
only whitespace to remain (`Extra data` otherwise); any scanner error is a
`JSONDecodeError`, modelled as `none`.  The fuel `2 * length + 2` dominates
the scanner's recursion depth on every input (each two nested calls consume
at least one character). -/
def loads (s : PyStr) : Option Json :=
  match parseValue (2 * s.length + 2) (skipWs s) with
  | some (v, r) => if skipWs r = [] then some v else none
  | none => none

/-! ## The data model (`models.py`)

Records mirror the SQLAlchemy models; `DateTime` columns are UTC timestamps
modelled as integers (seconds), nullable columns as `Option`.  The store is
the two tables the claims touch, as in-memory lists; primary keys and
timestamps that SQLite generates are explicit parameters of the operations
that create rows. -/

/-- A row of the `users` table. -/
structure User where
  id : Nat
  uuid : PyStr
  username : PyStr
  hashedPassword : PyStr
  nickname : Option PyStr
  isActive : Bool
  isAdmin : Bool
  createdAt : Int
  deriving Repr, DecidableEq

/-- A row of the `problems` table.  `knowledgeTags` and `tags` hold the
serialized JSON text exactly as the `Text` columns do. -/
structure Problem where
  id : Nat
  ownerId : Option Nat
  sourceType : PyStr
  raw : Option PyStr
  fileContent : Option PyStr
  parsed : Option PyStr
  subject : Option PyStr
  course : Option PyStr
  problemType : Option PyStr
  knowledgeTags : Option PyStr
  difficulty : Option Int
  isBookmarked : Bool
  tags : Option PyStr
  notes : Option PyStr
  createdAt : Int
  updatedAt : Int
  deriving Repr, DecidableEq

/-- The persistent store (the two tables the verified operations touch). -/
structure Store where
  users : List User
  problems : List Problem
  deriving Repr, DecidableEq

/-! ## Credential store (`crud.py` password helpers)

`pwd_context = CryptContext(schemes=["pbkdf2_sha256"])`.  The PBKDF2
computation itself is keyed cryptography whose output no proved property
inspects, so it is abstracted as a parameter `check`; what is modelled
concretely — from passlib's documented `CryptContext.verify` behaviour —
is hash identification: a hash that no configured scheme identifies makes
`verify` raise `UnknownHashError` (a `ValueError`), and an identified but
unparsable hash raises a malformed-hash `ValueError`; only a parsable
`$pbkdf2-sha256$...` hash reaches the boolean comparison. -/

/-- Errors raised by passlib's `CryptContext.verify` (both `ValueError`s). -/
inductive PasslibError
  | unknownHash
  | malformedHash
  deriving Repr, DecidableEq

/-- Whether `lit` begins the string `s`. -/
def beginsWith : PyStr → PyStr → Bool
  | [], _ => true
  | _ :: _, [] => false
  | l :: ls, c :: cs => l == c && beginsWith ls cs

/-- The identifying tag of passlib's `pbkdf2_sha256` hashes:
the 15 characters of `$pbkdf2-sha256$`. -/
def pbkdf2Tag : PyStr := [36, 112, 98, 107, 100, 102, 50, 45, 115, 104, 97, 50, 53, 54, 36]

/-- Split a string at `$` (code 36) separators. -/
def splitDollar : PyStr → List PyStr
  | [] => [[]]
  | c :: r =>
    let p := splitDollar r
    if c = 36 then [] :: p
    else match p with
      | g :: gs => (c :: g) :: gs
      | [] => [[c]]

/-- A parsable `pbkdf2_sha256` hash: the scheme tag followed by
`rounds$salt$checksum` with a decimal `rounds` without leading zeros —
the shape `passlib.hash.pbkdf2_sha256.from_string` accepts (model of its
documented format). -/
def pbkdf2WellFormed (h : PyStr) : Bool :=
  beginsWith pbkdf2Tag h &&
  match splitDollar (h.drop pbkdf2Tag.length) with
  | [rounds, salt, chk] =>
    !rounds.isEmpty && rounds.all isDigit &&
    (rounds.head? != some 48 || rounds == [48]) &&
    !salt.isEmpty && !chk.isEmpty
  | _ => false

/-- Model of `pwd_context.verify` (passlib `CryptContext.verify` with the
single scheme `pbkdf2_sha256`): raise on an unidentifiable or malformed
hash, otherwise decide by the PBKDF2 comparison `check`. -/
def ctxVerify (check : PyStr → PyStr → Bool) (plain hashed : PyStr) :
    Except PasslibError Bool :=
  if beginsWith pbkdf2Tag hashed then
    if pbkdf2WellFormed hashed then .ok (check plain hashed)
    else .error .malformedHash
  else .error .unknownHash

/-- Model of `crud.verify_password`: a direct delegation to `pwd_context.verify`
(no exception handling of its own). -/
def verify_password (check : PyStr → PyStr → Bool) (plain hashed : PyStr) :
    Except PasslibError Bool :=
  ctxVerify check plain hashed

/-! ## Identity directory (`crud.py` user operations) -/

/-- Model of `schemas.UserCreate`. -/
structure UserCreate where
  username : PyStr
  password : PyStr
  nickname : Option PyStr
  deriving Repr, DecidableEq

/-- Model of `crud.get_user_by_username`: `filter(User.username == username).first()`. -/
def get_user_by_username (db : Store) (username : PyStr) : Option User :=
  db.users.find? (fun u => u.username == username)

/-- Model of `crud.create_user`: persist a new user with a generated uuid and the
hash of the password.  `hashFn` abstracts `get_password_hash` (salted
PBKDF2, nondeterministic), `uuidV` the generated `uuid4`, `newId` and
`now` the store-assigned primary key and timestamp. -/
def create_user (hashFn : PyStr → PyStr) (uuidV : PyStr) (newId : Nat)
    (now : Int) (db : Store) (uin : UserCreate) : User × Store :=
  let user : User :=
    { id := newId, uuid := uuidV, username := uin.username,
      hashedPassword := hashFn uin.password, nickname := uin.nickname,
      isActive := true, isAdmin := false, createdAt := now }
  (user, { db with users := db.users ++ [user] })

/-- Model of `crud.authenticate_user`: look the user up by username, then verify the
password against the stored hash; `None` on unknown user or failed
verification.  A `verify_password` exception propagates (modelled by the
`Except` error). -/
def authenticate_user (check : PyStr → PyStr → Bool) (db : Store)
    (username password : PyStr) : Except PasslibError (Option User) :=
  match get_user_by_username db username with
  | none => .ok none
  | some user =>
    match verify_password check password user.hashedPassword with
    | .error e => .error e
    | .ok true => .ok (some user)
    | .ok false => .ok none

/-! ## Problem store (`crud.py` problem operations) -/

/-- Model of `schemas.ProblemCreate` (after pydantic validation: tag fields are
genuine lists of strings or absent). -/
structure ProblemCreate where
  sourceType : PyStr
  raw : PyStr
  fileContent : Option PyStr
  subject : Option PyStr
  course : Option PyStr
  problemType : Option PyStr
  knowledgeTags : Option (List PyStr)
  difficulty : Option Int
  tags : Option (List PyStr)
  notes : Option PyStr
  deriving Repr, DecidableEq

/-- Model of `schemas.ProblemUpdate`: every field optional, absent means untouched. -/
structure ProblemUpdate where
  subject : Option PyStr
  course : Option PyStr
  problemType : Option PyStr
  knowledgeTags : Option (List PyStr)
  difficulty : Option Int
  isBookmarked : Option Bool
  tags : Option (List PyStr)
  notes : Option PyStr
  deriving Repr, DecidableEq

/-- The all-absent update payload. -/
def emptyUpdate : ProblemUpdate :=
  { subject := none, course := none, problemType := none,
    knowledgeTags := none, difficulty := none, isBookmarked := none,
    tags := none, notes := none }

/-- Model of `crud.create_problem`'s tag serialization:
`json.dumps(x) if x else None` — Python truthiness sends both an absent
and an *empty* list to `NULL`. -/
def serializeTagList : Option (List PyStr) → Option PyStr
  | none => none
  | some [] => none
  | some (s :: t) => some (dumpsStrList (s :: t))

/-- Model of `crud.create_problem`: serialize the tag lists, build the row with the
caller as owner, persist it.  `newId` / `now` are the store-assigned key
and timestamps (`created_at` and `updated_at` both default to now). -/
def create_problem (newId : Nat) (now : Int) (db : Store) (owner_id : Nat)
    (pin : ProblemCreate) : Problem × Store :=
  let p : Problem :=
    { id := newId, ownerId := some owner_id, sourceType := pin.sourceType,
      raw := some pin.raw, fileContent := pin.fileContent, parsed := none,
      subject := pin.subject, course := pin.course,
      problemType := pin.problemType,
      knowledgeTags := serializeTagList pin.knowledgeTags,
      difficulty := pin.difficulty, isBookmarked := false,
      tags := serializeTagList pin.tags, notes := pin.notes,
      createdAt := now, updatedAt := now }
  (p, { db with problems := db.problems ++ [p] })

/-- Model of `crud.get_problem`: `filter(Problem.id == problem_id).first()`. -/
def crud_get_problem (db : Store) (problem_id : Nat) : Option Problem :=
  db.problems.find? (fun p => p.id == problem_id)

/-- Model of `crud.update_problem`: `None` when the id is unknown; otherwise each
field of the payload that is present (`is not None`) overwrites the stored
value — tag lists re-serialized with `json.dumps` (note: *without* the
create-side truthiness collapse) — and `updated_at` is refreshed by the
column's `onupdate` hook. -/
def crud_update_problem (now : Int) (db : Store) (problem_id : Nat)
    (u : ProblemUpdate) : Option (Problem × Store) :=
  match db.problems.find? (fun p => p.id == problem_id) with
  | none => none
  | some p =>
    let p' : Problem :=
      { p with
        subject := match u.subject with | some v => some v | none => p.subject,
        course := match u.course with | some v => some v | none => p.course,
        problemType :=
          match u.problemType with | some v => some v | none => p.problemType,
        knowledgeTags :=
          match u.knowledgeTags with
          | some l => some (dumpsStrList l)
          | none => p.knowledgeTags,
        difficulty :=
          match u.difficulty with | some v => some v | none => p.difficulty,
        isBookmarked :=
          match u.isBookmarked with | some v => v | none => p.isBookmarked,
        tags := match u.tags with | some l => some (dumpsStrList l) | none => p.tags,
        notes := match u.notes with | some v => some v | none => p.notes,
        updatedAt := now }
    some (p', { db with
      problems := db.problems.map (fun q => if q.id == problem_id then p' else q) })

/-! ## Response decoding (`schemas.ProblemOut`)

`ProblemOut.from_orm` runs the `parse_knowledge_tags` / `parse_tags`
validators (a `json.loads` whose decode errors become `None`) and then
pydantic's own validation of the declared field type
`Optional[List[str]]` — a loaded value that is neither a list of strings
nor `None` makes `from_orm` raise a `ValidationError`, modelled as the
`Except` error. -/

/-- The loaded JSON value as a list of strings, if it is one. -/
def allStrs : List Json → Option (List PyStr)
  | [] => some []
  | .str s :: t =>
    (match allStrs t with
     | some l => some (s :: l)
     | none => none)
  | _ :: _ => none

/-- A JSON value as a list of strings, if it is an array of strings. -/
def asStrList : Json → Option (List PyStr)
  | .arr xs => allStrs xs
  | _ => none

/-- One stored tag column through `parse_knowledge_tags` / `parse_tags`
plus the pydantic `Optional[List[str]]` validation: an absent column stays
absent; stored text that fails `json.loads` becomes absent (the validator
catches the decode error); loaded `null` is a valid absent value; a loaded
array of strings is the decoded list; anything else is a pydantic
`ValidationError` (the `Except` error). -/
def decodeTagsField : Option PyStr → Except Unit (Option (List PyStr))
  | none => .ok none
  | some s =>
    match loads s with
    | none => .ok none
    | some .null => .ok none
    | some j =>
      match asStrList j with
      | some l => .ok (some l)
      | none => .error ()

/-- Model of `schemas.ProblemOut` after validation (note: no `raw` field — the
response model does not expose it). -/
structure ProblemOut where
  id : Nat
  ownerId : Option Nat
  sourceType : PyStr
  fileContent : Option PyStr
  subject : Option PyStr
  course : Option PyStr
  problemType : Option PyStr
  knowledgeTags : Option (List PyStr)
  difficulty : Option Int
  isBookmarked : Bool
  tags : Option (List PyStr)
  notes : Option PyStr
  createdAt : Int
  updatedAt : Int
  deriving Repr, DecidableEq

/-- Model of `schemas.ProblemOut.from_orm`: copy the row, decoding the two tag
columns; a tag column holding loadable JSON that is not a string array
(and not `null`) raises a `ValidationError`. -/
def problemOutOfOrm (p : Problem) : Except Unit ProblemOut :=
  match decodeTagsField p.knowledgeTags, decodeTagsField p.tags with
  | .ok kt, .ok tg =>
    .ok { id := p.id, ownerId := p.ownerId, sourceType := p.sourceType,
          fileContent := p.fileContent, subject := p.subject,
          course := p.course, problemType := p.problemType,
          knowledgeTags := kt, difficulty := p.difficulty,
          isBookmarked := p.isBookmarked, tags := tg, notes := p.notes,
          createdAt := p.createdAt, updatedAt := p.updatedAt }
  | _, _ => .error ()

/-! ## Token service (`main.py` + python-jose)

A JWT is modelled as its decoded claims plus the key it was signed with:
`jwt.decode(token, key)` succeeds exactly when the verification key equals
the signing key (signature check) and the registered-claim validation
passes.  python-jose's `_validate_exp` compares whole seconds and rejects
only when `exp < now` (strictly) — a token is still accepted at the exact
expiry second.  Times are UTC seconds. -/

/-- The payload `create_access_token` encodes: the data dict holds at most
a `sub` claim in this backend, plus the added `exp`. -/
structure TokenData where
  sub : Option PyStr
  exp : Int
  deriving Repr, DecidableEq

/-- A signed token: claims plus the signing key (signature validity =
key equality, the only property HS256 gives at this level). -/
structure SignedToken where
  claims : TokenData
  key : PyStr
  deriving Repr, DecidableEq

/-- The constant `ACCESS_TOKEN_EXPIRE_MINUTES = 60 * 24 * 7`, in seconds. -/
def accessTokenExpireSeconds : Int := 60 * (60 * 24 * 7)

/-- Model of `create_access_token`: expiry is
now + delta (or the 7-day default), `exp` added to the copied data,
signed with the process key. -/
def create_access_token (key : PyStr) (now : Int) (sub : Option PyStr)
    (expires_delta : Option Int) : SignedToken :=
  { claims :=
      { sub := sub,
        exp := now + match expires_delta with
                     | some d => d
                     | none => accessTokenExpireSeconds },
    key := key }

/-- Model of `jose.jwt.decode(token, key, algorithms=[...])`: `JWTError` on a
signature mismatch; `ExpiredSignatureError` (a `JWTError`) when
`exp < now` — strictly in the past, per jose's `_validate_exp`. -/
def jwtDecode (key : PyStr) (now : Int) (tok : SignedToken) :
    Except Unit TokenData :=
  if tok.key ≠ key then .error ()
  else if tok.claims.exp < now then .error ()
  else .ok tok.claims

/-- HTTP-level outcomes of the routes: the four raised `HTTPException`
statuses, plus `internal` for an exception that escapes the handler
(surfaced by the framework as a 500, not an `HTTPException`). -/
inductive RouteError
  | badRequest
  | unauthorized
  | forbidden
  | notFound
  | internal
  deriving Repr, DecidableEq

/-- Model of `get_current_user`: decode the bearer token (401 on any `JWTError`),
require a `sub` claim (401), look the username up (401 when absent).
The `is_active` flag is *not* consulted. -/
def get_current_user (key : PyStr) (now : Int) (db : Store)
    (tok : SignedToken) : Except RouteError User :=
  match jwtDecode key now tok with
  | .error _ => .error .unauthorized
  | .ok claims =>
    match claims.sub with
    | none => .error .unauthorized
    | some username =>
      match get_user_by_username db username with
      | none => .error .unauthorized
      | some user => .ok user

/-! ## Routes (`main.py`) -/

/-- Model of `POST /register`: reject an already-taken username with a 400 before
any write; otherwise create the user.  The store is returned alongside so
that "the failed attempt changes nothing" is expressible. -/
def register (hashFn : PyStr → PyStr) (uuidV : PyStr) (newId : Nat)
    (now : Int) (db : Store) (uin : UserCreate) :
    Except RouteError User × Store :=
  match get_user_by_username db uin.username with
  | some _ => (.error .badRequest, db)
  | none =>
    let r := create_user hashFn uuidV newId now db uin
    (.ok r.1, r.2)

/-- Truthiness of an optional Python `str` (`Form(None)` field):
`None` and the empty string are falsy. -/
def strTruthy : Option PyStr → Bool
  | none => false
  | some s => !s.isEmpty

/-- Truthiness of `Problem.owner_id` (an optional `int`): `None` and `0`
are falsy. -/
def ownerTruthy : Option Nat → Bool
  | none => false
  | some n => n != 0

/-- Model of `GET /problems/{id}`: 404 when absent; 403 when the row has a truthy
owner different from the caller (`if p.owner_id and p.owner_id !=
current_user.id`) — an ownerless row is readable by anyone; otherwise the
row through `ProblemOut.from_orm` (whose `ValidationError` would escape
as a 500). -/
def api_get_problem (db : Store) (caller : User) (problem_id : Nat) :
    Except RouteError ProblemOut :=
  match crud_get_problem db problem_id with
  | none => .error .notFound
  | some p =>
    if ownerTruthy p.ownerId && (p.ownerId != some caller.id) then
      .error .forbidden
    else
      match problemOutOfOrm p with
      | .ok o => .ok o
      | .error _ => .error .internal

/-- Model of `PATCH /problems/{id}`: 404 when absent; 403 unless the row's owner
*equals* the caller (`if p.owner_id != current_user.id` — strict equality,
so an ownerless row is never updatable); then `crud.update_problem` and
the response through `from_orm`. -/
def api_update_problem (now : Int) (db : Store) (caller : User)
    (problem_id : Nat) (u : ProblemUpdate) :
    Except RouteError (ProblemOut × Store) :=
  match crud_get_problem db problem_id with
  | none => .error .notFound
  | some p =>
    if p.ownerId != some caller.id then .error .forbidden
    else
      match crud_update_problem now db problem_id u with
      | none => .error .internal
      | some (p', db') =>
        match problemOutOfOrm p' with
        | .ok o => .ok (o, db')
        | .error _ => .error .internal

/-- An uploaded file as FastAPI hands it to the route: a filename and the
byte content (`file.file.read()`, modelled as always readable). -/
structure FileIn where
  filename : PyStr
  content : List Nat
  deriving Repr, DecidableEq

/-- The multipart form of `POST /problems/upload` (fields already
type-checked by FastAPI; `Form(None)` fields are optional strings). -/
structure UploadForm where
  raw : Option PyStr
  file : Option FileIn
  sourceType : PyStr
  subject : Option PyStr
  course : Option PyStr
  problemType : Option PyStr
  knowledgeTags : Option PyStr
  difficulty : Option Int
  tags : Option PyStr
  notes : Option PyStr
  deriving Repr, DecidableEq

/-- Character of the standard base64 alphabet. -/
def b64Char (n : Nat) : Nat :=
  if n < 26 then 65 + n
  else if n < 52 then 97 + (n - 26)
  else if n < 62 then 48 + (n - 52)
  else if n = 62 then 43
  else 47

/-- Model of `base64.b64encode(bytes).decode('utf-8')`: standard alphabet with
`=` padding. -/
def b64Encode : List Nat → PyStr
  | [] => []
  | [a] => [b64Char (a / 4), b64Char (a % 4 * 16), 61, 61]
  | [a, b] => [b64Char (a / 4), b64Char (a % 4 * 16 + b / 16), b64Char (b % 16 * 4), 61]
  | a :: b :: c :: rest =>
    b64Char (a / 4) :: b64Char (a % 4 * 16 + b / 16) ::
    b64Char (b % 16 * 4 + c / 64) :: b64Char (c % 64) :: b64Encode rest

/-- The `FILE:` marker prepended to the filename in `raw` for file
uploads. -/
def fileMarker : PyStr := [70, 73, 76, 69, 58]

/-- One truthy tag form field through `json.loads`: skipped when absent or
empty (falsy), 400 on a `JSONDecodeError`, otherwise the loaded value. -/
def loadTagForm : Option PyStr → Except RouteError (Option Json)
  | none => .ok none
  | some s =>
    if s.isEmpty then .ok none
    else
      match loads s with
      | none => .error .badRequest
      | some j => .ok (some j)

/-- Pydantic validation of a loaded tag value against
`Optional[List[str]]` (at `ProblemCreate(...)` construction): `None` and
a loaded `null` pass as absent, an array of strings passes, anything else
raises a `ValidationError` that escapes the handler (500). -/
def pydanticStrList : Option Json → Except RouteError (Option (List PyStr))
  | none => .ok none
  | some .null => .ok none
  | some j =>
    match asStrList j with
    | some l => .ok (some l)
    | none => .error .internal

/-- Model of `POST /problems/upload`: 400 when both `raw` and `file` are falsy;
file bytes base64-encoded inline and `raw` replaced by the `FILE:` marker;
truthy tag fields `json.loads`-ed (400 on decode failure), then validated
by `ProblemCreate` (escaping `ValidationError` = 500); the row persisted
via `crud.create_problem` and returned through `from_orm`.  Returns the
stored row alongside the response and the new store. -/
def upload_problem (newId : Nat) (now : Int) (db : Store) (caller : User)
    (form : UploadForm) : Except RouteError (Problem × ProblemOut × Store) :=
  if !strTruthy form.raw && form.file.isNone then .error .badRequest
  else
    let fileContentB64 : Option PyStr :=
      match form.file with
      | some f => some (b64Encode f.content)
      | none => none
    let rawStore : PyStr :=
      match form.file with
      | some f => fileMarker ++ f.filename
      | none => match form.raw with
                | some s => s
                | none => []
    match loadTagForm form.knowledgeTags with
    | .error e => .error e
    | .ok kt0 =>
      match loadTagForm form.tags with
      | .error e => .error e
      | .ok tg0 =>
        match pydanticStrList kt0 with
        | .error e => .error e
        | .ok ktList =>
          match pydanticStrList tg0 with
          | .error e => .error e
          | .ok tgList =>
            let pin : ProblemCreate :=
              { sourceType := form.sourceType, raw := rawStore,
                fileContent := fileContentB64, subject := form.subject,
                course := form.course, problemType := form.problemType,
                knowledgeTags := ktList, difficulty := form.difficulty,
                tags := tgList, notes := form.notes }
            let r := create_problem newId now db caller.id pin
            match problemOutOfOrm r.1 with
            | .ok out => .ok (r.1, out, r.2)
            | .error _ => .error .internal

/-- The create-side truthiness collapse: the stored form of a tag list
reads back as the list itself, except that the empty list was stored as
`NULL` and reads back absent. -/
def collapseTags : Option (List PyStr) → Option (List PyStr)
  | none => none
  | some [] => none
  | some (s :: t) => some (s :: t)

/-! ## Concrete fixtures for witnesses and counterexamples -/

deriving instance DecidableEq for Except

/-- A parsable sample hash: the characters of
`$pbkdf2-sha256$29000$s$c`. -/
def sampleHash : PyStr := pbkdf2Tag ++ [50, 57, 48, 48, 48, 36, 115, 36, 99]

/-- A user `alice` (id 1) with the sample hash. -/
def aliceUser : User :=
  { id := 1, uuid := [97], username := [97, 108, 105, 99, 101],
    hashedPassword := sampleHash, nickname := none, isActive := true,
    isAdmin := false, createdAt := 0 }

/-- A user `bob` (id 2). -/
def bobUser : User :=
  { id := 2, uuid := [98], username := [98, 111, 98],
    hashedPassword := sampleHash, nickname := none, isActive := true,
    isAdmin := false, createdAt := 0 }

/-- A deactivated user `carol` (id 3). -/
def inactiveUser : User :=
  { id := 3, uuid := [99], username := [99, 97, 114, 111, 108],
    hashedPassword := sampleHash, nickname := none, isActive := false,
    isAdmin := false, createdAt := 0 }

/-- The empty store. -/
def emptyStore : Store := { users := [], problems := [] }

/-- A stored problem (id 1) with a given owner and no tag text. -/
def sampleProblem (oid : Option Nat) : Problem :=
  { id := 1, ownerId := oid, sourceType := [116, 101, 120, 116],
    raw := some [120], fileContent := none, parsed := none, subject := none,
    course := none, problemType := none, knowledgeTags := none,
    difficulty := none, isBookmarked := false, tags := none, notes := none,
    createdAt := 0, updatedAt := 0 }

/-- The response view of `sampleProblem (some 1)`. -/
def sampleOut : ProblemOut :=
  { id := 1, ownerId := some 1, sourceType := [116, 101, 120, 116],
    fileContent := none, subject := none, course := none,
    problemType := none, knowledgeTags := none, difficulty := none,
    isBookmarked := false, tags := none, notes := none,
    createdAt := 0, updatedAt := 0 }

/-- A store with `alice`, `bob`, `carol` and one problem owned by `alice`. -/
def db1 : Store :=
  { users := [aliceUser, bobUser, inactiveUser],
    problems := [sampleProblem (some 1)] }

/-- A creation payload with nonempty tag lists (`["ab"]` / `["c"]`). -/
def samplePin : ProblemCreate :=
  { sourceType := [116, 101, 120, 116], raw := [50, 43, 50],
    fileContent := none, subject := none, course := none,
    problemType := none, knowledgeTags := some [[97, 98]],
    difficulty := none, tags := some [[99]], notes := none }

/-- A creation payload whose `knowledge_tags` is the *empty* list. -/
def emptyTagPin : ProblemCreate :=
  { sourceType := [116, 101, 120, 116], raw := [50, 43, 50],
    fileContent := none, subject := none, course := none,
    problemType := none, knowledgeTags := some [], difficulty := none,
    tags := none, notes := none }

/-- Whether a route outcome is a success. -/
def exceptOk {e a : Type} : Except e a → Bool
  | .ok _ => true
  | .error _ => false

/-- A text upload form with content `"2+2"` and no optional fields. -/
def uploadFormBase : UploadForm :=
  { raw := some [50, 43, 50], file := none,
    sourceType := [116, 101, 120, 116], subject := none, course := none,
    problemType := none, knowledgeTags := none, difficulty := none,
    tags := none, notes := none }

/-- The two-stage validation of one tag form field, composed:
`json.loads` of a truthy field (400 on failure) followed by the pydantic
`Optional[List[str]]` check (internal error on a non-string-array). -/
def formTagStrList (v : Option PyStr) :
    Except RouteError (Option (List PyStr)) :=
  match loadTagForm v with
  | .error e => .error e
  | .ok j => pydanticStrList j

/-- The creation payload the C10 upload reduces to. -/
def c10pin : ProblemCreate :=
  { sourceType := [116, 101, 120, 116], raw := [50, 43, 50],
    fileContent := none, subject := none, course := none,
    problemType := none, knowledgeTags := none, difficulty := none,
    tags := none, notes := none }

/-- The response view of the C10 upload. -/
def c10out : ProblemOut :=
  { id := 1, ownerId := some 1, sourceType := [116, 101, 120, 116],
    fileContent := none, subject := none, course := none,
    problemType := none, knowledgeTags := none, difficulty := none,
    isBookmarked := false, tags := none, notes := none,
    createdAt := 0, updatedAt := 0 }

/-! ## Round-trip of the serializer through the parser -/

theorem hexVal_hexCh : ∀ d : Nat, d < 16 → hexVal (hexCh d) = some d := by
  intro d hd
  interval_cases d <;> rfl

theorem escStr_length (s : PyStr) : s.length ≤ (escStr s).length := by
  induction s with
  | nil => simp [escStr]
  | cons c s ih =>
    have h1 : 1 ≤ (escapeChar c).length := by
      unfold escapeChar
      split_ifs <;> simp [hex4]
    simp only [escStr, List.length_append, List.length_cons]
    omega

theorem skipWs_not_ws (c : Nat) (r : PyStr)
    (h : ¬(c = 32 ∨ c = 9 ∨ c = 10 ∨ c = 13)) :
    skipWs (c :: r) = c :: r := by
  simp only [skipWs, if_neg h]

theorem escapeChar_head (c : Nat) : ∃ h t, escapeChar c = h :: t ∧ ¬ h = 34 := by
  unfold escapeChar
  split_ifs with h1 h2 h3 h4 h5 h6 h7 h8 h9
  · exact ⟨92, _, rfl, by omega⟩
  · exact ⟨92, _, rfl, by omega⟩
  · exact ⟨92, _, rfl, by omega⟩
  · exact ⟨92, _, rfl, by omega⟩
  · exact ⟨92, _, rfl, by omega⟩
  · exact ⟨92, _, rfl, by omega⟩
  · exact ⟨92, _, rfl, by omega⟩
  · exact ⟨c, [], rfl, h1⟩
  · exact ⟨92, _, rfl, by omega⟩
  · exact ⟨92, _, rfl, by omega⟩

/-- Reading the four-digit hex lexeme of `n < 0x10000` recovers `n`. -/
theorem readU_hex4 (n : Nat) (hn : n < 65536) (tail : PyStr) :
    readU (hex4 n ++ tail) = some (n, tail) := by
  have e1 : hexVal (hexCh (n / 4096 % 16)) = some (n / 4096 % 16) :=
    hexVal_hexCh _ (by omega)
  have e2 : hexVal (hexCh (n / 256 % 16)) = some (n / 256 % 16) :=
    hexVal_hexCh _ (by omega)
  have e3 : hexVal (hexCh (n / 16 % 16)) = some (n / 16 % 16) :=
    hexVal_hexCh _ (by omega)
  have e4 : hexVal (hexCh (n % 16)) = some (n % 16) :=
    hexVal_hexCh _ (by omega)
  have hsum : ((n / 4096 % 16 * 16 + n / 256 % 16) * 16 + n / 16 % 16) * 16
      + n % 16 = n := by omega
  simp only [hex4, List.cons_append, List.nil_append, readU, e1, e2, e3, e4]
  rw [hsum]

/-- The high-surrogate continuation combines an escaped low surrogate. -/
theorem surrogatePair_low (n lo : Nat) (h1 : 56320 ≤ lo) (h2 : lo < 57344)
    (tail : PyStr) :
    surrogatePair n (92 :: 117 :: (hex4 lo ++ tail)) =
      some (65536 + (n - 55296) * 1024 + (lo - 56320), tail) := by
  simp only [surrogatePair]
  rw [readU_hex4 lo (by omega) tail]
  simp [h1, h2]

/-- Decoding the escape of one scalar code point recovers it and consumes
exactly the escape. -/
theorem decodeOne_escape (c : Nat) (hc : isScalar c = true) (tail : PyStr) :
    decodeOne (escapeChar c ++ tail) = some (c, tail) := by
  by_cases h34 : c = 34
  · subst h34; simp [escapeChar, decodeOne]
  by_cases h92 : c = 92
  · subst h92; simp [escapeChar, decodeOne]
  by_cases h8 : c = 8
  · subst h8; simp [escapeChar, decodeOne]
  by_cases h12 : c = 12
  · subst h12; simp [escapeChar, decodeOne]
  by_cases h10 : c = 10
  · subst h10; simp [escapeChar, decodeOne]
  by_cases h13 : c = 13
  · subst h13; simp [escapeChar, decodeOne]
  by_cases h9 : c = 9
  · subst h9; simp [escapeChar, decodeOne]
  by_cases hpr : 32 ≤ c ∧ c ≤ 126
  · -- literal printable character
    have he : escapeChar c = [c] := by
      unfold escapeChar
      rw [if_neg h34, if_neg h92, if_neg h8, if_neg h12, if_neg h10,
          if_neg h13, if_neg h9, if_pos hpr]
    rw [he]
    simp only [List.cons_append, List.nil_append, decodeOne]
    rw [if_neg h34, if_neg h92, if_neg (by omega : ¬ c < 32)]
  by_cases hlow : c < 65536
  · -- basic-plane escape
    have hsur : ¬ (55296 ≤ c ∧ c < 56320) := by
      simp only [isScalar, Bool.or_eq_true, Bool.and_eq_true,
        decide_eq_true_eq] at hc
      omega
    have he : escapeChar c = 92 :: 117 :: hex4 c := by
      unfold escapeChar
      rw [if_neg h34, if_neg h92, if_neg h8, if_neg h12, if_neg h10,
          if_neg h13, if_neg h9, if_neg hpr, if_pos hlow]
    rw [he]
    simp only [List.cons_append, decodeOne, reduceIte]
    rw [readU_hex4 c hlow tail]
    simp [hsur]
  · -- astral code point: surrogate-pair escape
    have hup : c < 1114112 := by
      simp only [isScalar, Bool.or_eq_true, Bool.and_eq_true,
        decide_eq_true_eq] at hc
      omega
    have hib : 55296 + (c - 65536) / 1024 < 65536 := by
      have : (c - 65536) / 1024 < 1024 := by omega
      omega
    have hlb : 56320 + (c - 65536) % 1024 < 65536 := by
      have : (c - 65536) % 1024 < 1024 := by omega
      omega
    have hhir : 55296 ≤ 55296 + (c - 65536) / 1024
        ∧ 55296 + (c - 65536) / 1024 < 56320 := by
      have : (c - 65536) / 1024 < 1024 := by omega
      omega
    have hlor : 56320 ≤ 56320 + (c - 65536) % 1024
        ∧ 56320 + (c - 65536) % 1024 < 57344 := by
      have : (c - 65536) % 1024 < 1024 := by omega
      omega
    have hcomb : 65536 + (55296 + (c - 65536) / 1024 - 55296) * 1024
        + (56320 + (c - 65536) % 1024 - 56320) = c := by omega
    have hcomb2 : 65536 + (c - 65536) / 1024 * 1024 + (c - 65536) % 1024
        = c := by omega
    have he : escapeChar c =
        (92 :: 117 :: hex4 (55296 + (c - 65536) / 1024)) ++
        (92 :: 117 :: hex4 (56320 + (c - 65536) % 1024)) := by
      unfold escapeChar
      rw [if_neg h34, if_neg h92, if_neg h8, if_neg h12, if_neg h10,
          if_neg h13, if_neg h9, if_neg hpr, if_neg hlow]
    rw [he]
    simp only [List.cons_append, List.append_assoc, decodeOne, reduceIte]
    rw [readU_hex4 _ hib]
    simp only [hhir.1, hhir.2, and_self, if_true]
    rw [surrogatePair_low _ _ hlor.1 hlor.2]
    rw [hcomb]
    simp

/-- One fueled scan step over the escape of a scalar code point. -/
theorem psb_escapeChar (c : Nat) (hc : isScalar c = true) (fuel : Nat)
    (tail : PyStr) :
    parseStringBody (fuel + 1) (escapeChar c ++ tail) =
      consRes c (parseStringBody fuel tail) := by
  obtain ⟨h, t, hht, hne⟩ := escapeChar_head c
  have hd : decodeOne (h :: (t ++ tail)) = some (c, tail) := by
    have := decodeOne_escape c hc tail
    rwa [hht, List.cons_append] at this
  rw [hht, List.cons_append]
  simp only [parseStringBody]
  rw [if_neg hne, hd]

/-- Parsing an escaped scalar string body recovers it exactly, leaving the
input after the closing quote, for any sufficient fuel. -/
theorem psb_escape (s : PyStr) : ∀ (fuel : Nat) (rest : PyStr),
    strScalar s = true → s.length + 1 ≤ fuel →
    parseStringBody fuel (escStr s ++ 34 :: rest) = some (s, rest) := by
  induction s with
  | nil =>
    intro fuel rest _ hf
    cases fuel with
    | zero => exact absurd hf (by omega)
    | succ f => simp [escStr, parseStringBody]
  | cons c s ih =>
    intro fuel rest hsc hf
    have hc : isScalar c = true := by
      simp only [strScalar, List.all_cons, Bool.and_eq_true] at hsc
      exact hsc.1
    have hs : strScalar s = true := by
      simp only [strScalar, List.all_cons, Bool.and_eq_true] at hsc
      exact hsc.2
    cases fuel with
    | zero => exact absurd hf (by omega)
    | succ f =>
    have hfs : s.length + 1 ≤ f := by
      simp only [List.length_cons] at hf; omega
    have harr : escStr (c :: s) ++ 34 :: rest
        = escapeChar c ++ (escStr s ++ 34 :: rest) := by
      simp [escStr, List.append_assoc]
    rw [harr, psb_escapeChar c hc f, ih f rest hs hfs]
    rfl

theorem elemsChars_head (s : PyStr) (t : List PyStr) :
    ∃ u, elemsChars (s :: t) = 34 :: u := by
  cases t with
  | nil => exact ⟨escStr s ++ [34], by simp [elemsChars, dumpsStr]⟩
  | cons s2 t2 =>
    exact ⟨(escStr s ++ [34]) ++ 44 :: 32 :: elemsChars (s2 :: t2),
      by simp [elemsChars, dumpsStr]⟩

theorem elemsChars_length (L : List PyStr) :
    L.length ≤ (elemsChars L).length := by
  induction L with
  | nil => exact Nat.zero_le _
  | cons s t ih =>
    cases t with
    | nil =>
      show (1 : Nat) ≤ (dumpsStr s).length
      simp [dumpsStr]
    | cons s2 t2 =>
      have h : elemsChars (s :: s2 :: t2)
          = dumpsStr s ++ 44 :: 32 :: elemsChars (s2 :: t2) := by
        simp [elemsChars]
      rw [h]
      simp only [dumpsStr, List.length_append, List.length_cons] at *
      omega

theorem dumps_length (L : List PyStr) :
    L.length ≤ (dumpsStrList L).length := by
  cases L with
  | nil => simp [dumpsStrList]
  | cons s t =>
    have := elemsChars_length (s :: t)
    simp only [dumpsStrList, List.length_cons, List.length_append] at *
    omega

/-- The one-step unfolding of `parseElems`, with a variable fuel in the
recursive positions (so it can be applied exactly once by `rw`). -/
theorem parseElems_succ (f : Nat) (input : PyStr) :
    parseElems (f + 1) input =
      match parseValue f input with
      | none => none
      | some (v, r) =>
        match skipWs r with
        | 44 :: r2 =>
          (match parseElems f (skipWs r2) with
           | some (xs, rest) => some (v :: xs, rest)
           | none => none)
        | 93 :: r2 => some ([v], r2)
        | _ => none := by
  simp only [parseElems]

/-- Scanning the serialization of one string yields that string value and
consumes exactly it. -/
theorem parseValue_dumpsStr (fuel : Nat) (s : PyStr) (rest : PyStr)
    (hs : strScalar s = true) :
    parseValue (fuel + 1) (dumpsStr s ++ rest) = some (Json.str s, rest) := by
  have harr : dumpsStr s ++ rest = 34 :: (escStr s ++ 34 :: rest) := by
    simp [dumpsStr]
  rw [harr]
  have hlen : s.length + 1 ≤ (escStr s ++ 34 :: rest).length + 1 := by
    have := escStr_length s
    simp only [List.length_append, List.length_cons]
    omega
  simp only [parseValue, reduceIte]
  rw [psb_escape s _ rest hs hlen]

/-- Scanning the serialized elements of a nonempty scalar string list up to
the closing bracket yields the string values. -/
theorem parseElems_dumps (L : List PyStr) : ∀ (fuel : Nat) (rest : PyStr),
    L ≠ [] → listScalar L = true → L.length + 1 ≤ fuel →
    parseElems fuel (elemsChars L ++ 93 :: rest) = some (L.map Json.str, rest) := by
  induction L with
  | nil => intro fuel rest hne; exact absurd rfl hne
  | cons s t ih =>
    intro fuel rest _ hsc hf
    have hs : strScalar s = true := by
      simp only [listScalar, List.all_cons, Bool.and_eq_true] at hsc
      exact hsc.1
    have ht : listScalar t = true := by
      simp only [listScalar, List.all_cons, Bool.and_eq_true] at hsc
      exact hsc.2
    cases fuel with
    | zero => exact absurd hf (by omega)
    | succ f =>
    cases f with
    | zero =>
      exfalso
      simp only [List.length_cons] at hf
      omega
    | succ f2 =>
    rw [parseElems_succ (f2 + 1)]
    cases t with
    | nil =>
      have harr : elemsChars [s] ++ 93 :: rest = dumpsStr s ++ 93 :: rest := by
        simp [elemsChars]
      rw [harr]
      rw [parseValue_dumpsStr f2 s (93 :: rest) hs]
      simp [skipWs_not_ws 93 rest (by omega), List.map]
    | cons s2 t2 =>
      have harr : elemsChars (s :: s2 :: t2) ++ 93 :: rest
          = dumpsStr s ++ 44 :: 32 :: (elemsChars (s2 :: t2) ++ 93 :: rest) := by
        simp [elemsChars]
      rw [harr]
      rw [parseValue_dumpsStr f2 s _ hs]
      have h44 := skipWs_not_ws 44 (32 :: (elemsChars (s2 :: t2) ++ 93 :: rest))
        (by omega)
      obtain ⟨u, hu⟩ := elemsChars_head s2 t2
      have hsw : skipWs (32 :: (elemsChars (s2 :: t2) ++ 93 :: rest))
          = elemsChars (s2 :: t2) ++ 93 :: rest := by
        have h32 : skipWs (32 :: (elemsChars (s2 :: t2) ++ 93 :: rest))
            = skipWs (elemsChars (s2 :: t2) ++ 93 :: rest) := by
          simp [skipWs]
        rw [h32, hu, List.cons_append, skipWs_not_ws 34 _ (by omega)]
      have hfe : (s2 :: t2).length + 1 ≤ f2 + 1 := by
        simp only [List.length_cons] at hf ⊢
        omega
      have hrec := ih (f2 + 1) rest (by simp) ht hfe
      simp [h44, hsw, hrec, List.map]

/-- Scanning the serialization of a nonempty scalar string list yields the
JSON array of its strings and consumes the whole input. -/
theorem parseValue_arr (L : List PyStr) (f : Nat)
    (hne : L ≠ []) (hsc : listScalar L = true) (hf : L.length + 1 ≤ f) :
    parseValue (f + 1) (dumpsStrList L) = some (Json.arr (L.map Json.str), []) := by
  cases L with
  | nil => exact absurd rfl hne
  | cons s t =>
  obtain ⟨u, hu⟩ := elemsChars_head s t
  have harr : dumpsStrList (s :: t)
      = 91 :: (elemsChars (s :: t) ++ 93 :: ([] : PyStr)) := by
    simp [dumpsStrList]
  rw [harr]
  simp only [parseValue, reduceIte]
  have hsw : skipWs (elemsChars (s :: t) ++ 93 :: ([] : PyStr))
      = elemsChars (s :: t) ++ 93 :: ([] : PyStr) := by
    rw [hu, List.cons_append, skipWs_not_ws 34 _ (by omega)]
  rw [hsw]
  have hpe := parseElems_dumps (s :: t) f [] (by simp) hsc hf
  rw [hu, List.cons_append] at hpe ⊢
  simp [hpe]

/-- Applying `json.loads` to `json.dumps` of a nonempty scalar string list is the
corresponding JSON array of strings. -/
theorem loads_dumps (L : List PyStr) (hne : L ≠ []) (hsc : listScalar L = true) :
    loads (dumpsStrList L) = some (Json.arr (L.map Json.str)) := by
  have hlen := dumps_length L
  have hhead : ∃ u, dumpsStrList L = 91 :: u := by
    cases L with
    | nil => exact absurd rfl hne
    | cons s t => exact ⟨elemsChars (s :: t) ++ [93], by simp [dumpsStrList]⟩
  obtain ⟨u, hu⟩ := hhead
  unfold loads
  rw [hu, skipWs_not_ws 91 _ (by omega), ← hu]
  have hf2 : 2 * (dumpsStrList L).length + 2
      = (2 * (dumpsStrList L).length + 1) + 1 := rfl
  rw [hf2]
  rw [parseValue_arr L (2 * (dumpsStrList L).length + 1) hne hsc (by omega)]
  simp [skipWs]

theorem allStrs_map (L : List PyStr) :
    allStrs (L.map Json.str) = some L := by
  induction L with
  | nil => rfl
  | cons s t ih => simp [List.map, allStrs, ih]

/-- Serialize-then-decode for a tag-list value: lossless except that the
empty list collapses to absent. -/
theorem decodeTags_serialize (t : Option (List PyStr))
    (h : optListScalar t = true) :
    decodeTagsField (serializeTagList t) = .ok (collapseTags t) := by
  match t with
  | none => rfl
  | some [] => rfl
  | some (s :: t') =>
    have hsc : listScalar (s :: t') = true := h
    simp only [serializeTagList, decodeTagsField, collapseTags]
    rw [loads_dumps (s :: t') (by simp) hsc]
    have hstr : asStrList (Json.arr (Json.str s :: t'.map Json.str))
        = some (s :: t') := by
      have := allStrs_map (s :: t')
      simp only [List.map] at this
      simp [asStrList, this]
    simp [hstr]

/-! ## C1 — tag-list serialization round trip -/

/-- C1, counterexample: storing the *empty* tag list through
`create_problem` and reading it back yields the absent value, not the
empty list — `decode(encode(some []))` is `none`, so the round-trip law
fails at `L = []`. -/
theorem c1_roundtrip_counterexample :
    decodeTagsField
        ((create_problem 1 0 emptyStore 1 emptyTagPin).1.knowledgeTags)
      = .ok none
    ∧ (Except.ok none : Except Unit (Option (List PyStr)))
        ≠ .ok (some []) := by
  exact ⟨by decide, by decide⟩

/-- C1 (amended): for every creation payload of Unicode-scalar tag lists,
storing via `create_problem` and decoding the stored text back (the
`ProblemOut` read path) returns exactly the original lists — order
preserved and lossless — except that a present-but-empty list is stored as
absent and reads back absent (`collapseTags`); the absent value round-trips
to absent. -/
theorem c1_tag_roundtrip (newId : Nat) (now : Int) (db : Store) (oid : Nat)
    (pin : ProblemCreate)
    (hkt : optListScalar pin.knowledgeTags = true)
    (htg : optListScalar pin.tags = true) :
    decodeTagsField ((create_problem newId now db oid pin).1.knowledgeTags)
      = .ok (collapseTags pin.knowledgeTags)
    ∧ decodeTagsField ((create_problem newId now db oid pin).1.tags)
      = .ok (collapseTags pin.tags) := by
  constructor
  · show decodeTagsField (serializeTagList pin.knowledgeTags) = _
    exact decodeTags_serialize _ hkt
  · show decodeTagsField (serializeTagList pin.tags) = _
    exact decodeTags_serialize _ htg

/-- C1 witness: concrete nonempty lists round-trip through create + read. -/
theorem c1_tag_roundtrip_witness :
    optListScalar samplePin.knowledgeTags = true
    ∧ decodeTagsField ((create_problem 1 0 emptyStore 1 samplePin).1.knowledgeTags)
        = .ok (some [[97, 98]])
    ∧ decodeTagsField ((create_problem 1 0 emptyStore 1 samplePin).1.tags)
        = .ok (some [[99]]) :=
  ⟨by decide,
   (c1_tag_roundtrip 1 0 emptyStore 1 samplePin (by decide) (by decide)).1,
   (c1_tag_roundtrip 1 0 emptyStore 1 samplePin (by decide) (by decide)).2⟩

/-! ## C3 — `verify` on malformed hashes -/

/-- C3, counterexample: with the empty string as stored hash — a string
that is not a well-formed hash — `verify_password` raises passlib's
`UnknownHashError` instead of returning false (the claim demands false and
no exception for every such string). -/
theorem c3_verify_counterexample :
    verify_password (fun _ _ => false) [120] [] = .error .unknownHash
    ∧ (Except.error .unknownHash : Except PasslibError Bool) ≠ .ok false := by
  exact ⟨by decide, by decide⟩

/-- C3 (amended): `verify_password` delegates to passlib unguarded, so it
returns a boolean (never raising) exactly on hashes identified and parsed
as the configured `pbkdf2_sha256` scheme; a string without the scheme tag
makes it raise `UnknownHashError` — it does not return false. -/
theorem c3_verify_amended (check : PyStr → PyStr → Bool) (plain h : PyStr) :
    (beginsWith pbkdf2Tag h = false →
      verify_password check plain h = .error .unknownHash)
    ∧ (pbkdf2WellFormed h = true →
      verify_password check plain h = .ok (check plain h)) := by
  constructor
  · intro hb
    simp [verify_password, ctxVerify, hb]
  · intro hw
    have hb : beginsWith pbkdf2Tag h = true := by
      simp only [pbkdf2WellFormed, Bool.and_eq_true] at hw
      exact hw.1
    simp [verify_password, ctxVerify, hb, hw]

/-- C3 witness: the empty-string hash raises, a parsable hash reaches the
PBKDF2 comparison. -/
theorem c3_verify_amended_witness :
    beginsWith pbkdf2Tag [] = false
    ∧ verify_password (fun _ _ => true) [120] [] = .error .unknownHash
    ∧ pbkdf2WellFormed sampleHash = true
    ∧ verify_password (fun _ _ => true) [120] sampleHash = .ok true :=
  ⟨by decide, (c3_verify_amended (fun _ _ => true) [120] []).1 (by decide),
   by decide, (c3_verify_amended (fun _ _ => true) [120] sampleHash).2 (by decide)⟩

/-! ## C5 — partial-update frame law -/

/-- C5: updating a stored problem with a payload that provides only
`subject` yields exactly the old record with `subject` replaced and
`updated_at` refreshed — every other field (owner, source kind, raw
content, file content, parsed form, course, problem type, both tag texts,
difficulty, bookmark flag, notes, created-at) keeps its pre-update value;
fields absent from the payload are untouched. -/
theorem c5_partial_update_frame (now : Int) (db : Store) (pid : Nat)
    (p : Problem) (X : PyStr)
    (hfind : db.problems.find? (fun q => q.id == pid) = some p) :
    crud_update_problem now db pid { emptyUpdate with subject := some X }
      = some ({ p with subject := some X, updatedAt := now },
          { db with problems :=
              (db.problems.map (fun q =>
                if q.id == pid
                then { p with subject := some X, updatedAt := now }
                else q)) }) := by
  simp [crud_update_problem, hfind, emptyUpdate]

/-- C5 witness: the concrete one-problem store, subject set to `"m"`. -/
theorem c5_partial_update_frame_witness :
    crud_update_problem 7 db1 1 { emptyUpdate with subject := some [109] }
      = some ({ sampleProblem (some 1) with subject := some [109], updatedAt := 7 },
          { db1 with problems :=
              (db1.problems.map (fun q =>
                if q.id == 1
                then { sampleProblem (some 1) with subject := some [109], updatedAt := 7 }
                else q)) }) :=
  c5_partial_update_frame 7 db1 1 (sampleProblem (some 1)) [109] (by decide)

/-! ## C9 — duplicate registration -/

/-- C9: registering a username that is already present fails with the
400 `DuplicateUsername` response before any write — the returned store is
the original one, so no user is created and the stored record for that
username is untouched. -/
theorem c9_duplicate_register (hashFn : PyStr → PyStr) (uuidV : PyStr)
    (newId : Nat) (now : Int) (db : Store) (uin : UserCreate) (w : User)
    (hexists : get_user_by_username db uin.username = some w) :
    register hashFn uuidV newId now db uin = (.error .badRequest, db) := by
  simp [register, hexists]

/-- C9 witness: re-registering `alice` on the concrete store fails with
400 and leaves the store unchanged. -/
theorem c9_duplicate_register_witness :
    register (fun p => p) [117] 9 5 db1
        { username := [97, 108, 105, 99, 101], password := [113],
          nickname := none }
      = (.error .badRequest, db1) :=
  c9_duplicate_register (fun p => p) [117] 9 5 db1
    { username := [97, 108, 105, 99, 101], password := [113], nickname := none }
    aliceUser (by decide)

/-! ## C2 — read-ownership law -/

/-- C2: `GET /problems/{id}` on a stored problem succeeds (returning its
response view) when the problem's owner is the caller or the problem has
no owner, and fails with 403 Forbidden when the owner is a user other
than the caller (owner ids of real users are positive); an unknown id is
404. -/
theorem c2_read_ownership (db : Store) (caller : User) (pid : Nat) :
    (crud_get_problem db pid = none →
      api_get_problem db caller pid = .error .notFound)
    ∧ (∀ p out, crud_get_problem db pid = some p →
        problemOutOfOrm p = .ok out →
        ((p.ownerId = some caller.id ∨ p.ownerId = none) →
          api_get_problem db caller pid = .ok out)
        ∧ (∀ o, p.ownerId = some o → 0 < o → o ≠ caller.id →
            api_get_problem db caller pid = .error .forbidden)) := by
  refine ⟨?_, ?_⟩
  · intro h
    simp [api_get_problem, h]
  · intro p out hfind horm
    refine ⟨?_, ?_⟩
    · rintro (h | h)
      · simp [api_get_problem, hfind, h, ownerTruthy, horm]
      · simp [api_get_problem, hfind, h, ownerTruthy, horm]
    · intro o ho hpos hne
      have h0 : (o != 0) = true := by
        simp only [bne_iff_ne, ne_eq]
        omega
      have hne2 : (some o != some caller.id) = true := by
        simp only [bne_iff_ne, ne_eq, Option.some.injEq]
        exact hne
      simp [api_get_problem, hfind, ho, ownerTruthy, h0, hne2]

/-- C2 witness: on the concrete store, the owner reads the problem, the
other user is rejected with 403. -/
theorem c2_read_ownership_witness :
    api_get_problem db1 aliceUser 1 = .ok sampleOut
    ∧ api_get_problem db1 bobUser 1 = .error .forbidden :=
  ⟨((c2_read_ownership db1 aliceUser 1).2 (sampleProblem (some 1)) sampleOut
      (by decide) (by decide)).1 (Or.inl (by decide)),
   ((c2_read_ownership db1 bobUser 1).2 (sampleProblem (some 1)) sampleOut
      (by decide) (by decide)).2 1 (by decide) (by decide) (by decide)⟩

/-! ## C4 — token expiry boundary -/

/-- C4, counterexample: a token issued for `alice` at time 0 carries
expiry 604800 (the 7-day default); verifying it *exactly at* the expiry
second still succeeds — jose's `_validate_exp` rejects only strictly past
expiry — contradicting "exactly at expiry the token is invalid". -/
theorem c4_expiry_counterexample :
    (create_access_token [107] 0 (some aliceUser.username) none).claims.exp
        = 604800
    ∧ get_current_user [107] 604800 db1
        (create_access_token [107] 0 (some aliceUser.username) none)
      = .ok aliceUser := by
  exact ⟨by decide, by decide⟩

/-- C4 (amended): a token issued for a stored user verifies to that user's
identity at every verification time up to *and including* the embedded
expiry timestamp, and fails as 401 Unauthorized at every time strictly
after it — the boundary second is still valid. -/
theorem c4_token_expiry (key : PyStr) (issued now : Int) (db : Store)
    (user : User) (delta : Option Int)
    (hlook : get_user_by_username db user.username = some user) :
    (now ≤ (create_access_token key issued (some user.username) delta).claims.exp →
      get_current_user key now db
        (create_access_token key issued (some user.username) delta) = .ok user)
    ∧ ((create_access_token key issued (some user.username) delta).claims.exp < now →
      get_current_user key now db
        (create_access_token key issued (some user.username) delta)
          = .error .unauthorized) := by
  constructor
  · intro hle
    have hkey : ¬ (create_access_token key issued
        (some user.username) delta).key ≠ key := by
      simp [create_access_token]
    have hnot : ¬ (create_access_token key issued
        (some user.username) delta).claims.exp < now := by
      omega
    simp only [get_current_user, jwtDecode, if_neg hkey, if_neg hnot]
    simp [create_access_token, hlook]
  · intro hlt
    have hkey : ¬ (create_access_token key issued
        (some user.username) delta).key ≠ key := by
      simp [create_access_token]
    simp only [get_current_user, jwtDecode, if_neg hkey, if_pos hlt]

/-- C4 witness: before expiry the token resolves to `alice`; one second
after expiry it is rejected with 401. -/
theorem c4_token_expiry_witness :
    get_current_user [107] 604799 db1
        (create_access_token [107] 0 (some aliceUser.username) none)
      = .ok aliceUser
    ∧ get_current_user [107] 604801 db1
        (create_access_token [107] 0 (some aliceUser.username) none)
      = .error .unauthorized :=
  ⟨(c4_token_expiry [107] 0 604799 db1 aliceUser none (by decide)).1 (by decide),
   (c4_token_expiry [107] 0 604801 db1 aliceUser none (by decide)).2 (by decide)⟩

/-! ## C6 — authenticate -/

/-- C6: `authenticate_user` returns the stored user exactly when the
username is present and the PBKDF2 comparison accepts the password
against the stored (parsable) hash, and returns the absent value both for
an unknown username and for a rejected password — the same value, so the
two cases are indistinguishable to the caller; the conclusion never
consults `is_active`, so an inactive user with accepted credentials still
authenticates. -/
theorem c6_authenticate (check : PyStr → PyStr → Bool) (db : Store)
    (username password : PyStr) :
    (get_user_by_username db username = none →
      authenticate_user check db username password = .ok none)
    ∧ (∀ user, get_user_by_username db username = some user →
        pbkdf2WellFormed user.hashedPassword = true →
        authenticate_user check db username password
          = .ok (if check password user.hashedPassword then some user
                 else none)) := by
  constructor
  · intro h
    simp [authenticate_user, h]
  · intro user hfind hwf
    have hb : beginsWith pbkdf2Tag user.hashedPassword = true := by
      simp only [pbkdf2WellFormed, Bool.and_eq_true] at hwf
      exact hwf.1
    cases hch : check password user.hashedPassword with
    | true =>
      simp [authenticate_user, hfind, verify_password, ctxVerify, hb, hwf, hch]
    | false =>
      simp [authenticate_user, hfind, verify_password, ctxVerify, hb, hwf, hch]

/-- C6 witness: unknown username is absent; the *inactive* user `carol`
with an accepted password authenticates; a rejected password is absent. -/
theorem c6_authenticate_witness :
    authenticate_user (fun _ _ => true) db1 [122] [112] = .ok none
    ∧ authenticate_user (fun _ _ => true) db1 inactiveUser.username [112]
        = .ok (some inactiveUser)
    ∧ authenticate_user (fun _ _ => false) db1 inactiveUser.username [112]
        = .ok none :=
  ⟨(c6_authenticate (fun _ _ => true) db1 [122] [112]).1 (by decide),
   (c6_authenticate (fun _ _ => true) db1 inactiveUser.username [112]).2
      inactiveUser (by decide) (by decide),
   (c6_authenticate (fun _ _ => false) db1 inactiveUser.username [112]).2
      inactiveUser (by decide) (by decide)⟩

/-! ## C8 — strict update ownership -/

/-- C8: `PATCH /problems/{id}` is 404 on an unknown id; 403 whenever the
stored owner differs from the caller — including an ownerless problem,
which no caller can ever update (strict equality, unlike the ownerless
read exception); and succeeds when the owner equals the caller (stated
for payloads that leave the tag texts untouched and decodable). -/
theorem c8_update_ownership (now : Int) (db : Store) (caller : User)
    (pid : Nat) (u : ProblemUpdate) :
    (crud_get_problem db pid = none →
      api_update_problem now db caller pid u = .error .notFound)
    ∧ (∀ p, crud_get_problem db pid = some p →
        p.ownerId ≠ some caller.id →
        api_update_problem now db caller pid u = .error .forbidden)
    ∧ (∀ p kt tg, crud_get_problem db pid = some p →
        p.ownerId = some caller.id →
        u.knowledgeTags = none → u.tags = none →
        decodeTagsField p.knowledgeTags = .ok kt →
        decodeTagsField p.tags = .ok tg →
        exceptOk (api_update_problem now db caller pid u) = true) := by
  refine ⟨?_, ?_, ?_⟩
  · intro h
    simp [api_update_problem, h]
  · intro p hfind hne
    have hb : (p.ownerId != some caller.id) = true := by
      simp only [bne_iff_ne, ne_eq]
      exact hne
    simp [api_update_problem, hfind, hb]
  · intro p kt tg hfind hown hukt hutg hdkt hdtg
    have hb : (p.ownerId != some caller.id) = false := by
      simp [hown]
    have hupd : crud_update_problem now db pid u
        = some ({ p with
            subject := match u.subject with | some v => some v | none => p.subject,
            course := match u.course with | some v => some v | none => p.course,
            problemType := match u.problemType with
              | some v => some v | none => p.problemType,
            knowledgeTags := p.knowledgeTags,
            difficulty := match u.difficulty with
              | some v => some v | none => p.difficulty,
            isBookmarked := match u.isBookmarked with
              | some v => v | none => p.isBookmarked,
            tags := p.tags,
            notes := match u.notes with | some v => some v | none => p.notes,
            updatedAt := now },
          { db with problems :=
              (db.problems.map (fun q =>
                if q.id == pid
                then { p with
                    subject := match u.subject with
                      | some v => some v | none => p.subject,
                    course := match u.course with
                      | some v => some v | none => p.course,
                    problemType := match u.problemType with
                      | some v => some v | none => p.problemType,
                    knowledgeTags := p.knowledgeTags,
                    difficulty := match u.difficulty with
                      | some v => some v | none => p.difficulty,
                    isBookmarked := match u.isBookmarked with
                      | some v => v | none => p.isBookmarked,
                    tags := p.tags,
                    notes := match u.notes with
                      | some v => some v | none => p.notes,
                    updatedAt := now }
                else q)) }) := by
      simp [crud_update_problem, crud_get_problem] at hfind ⊢
      simp [hfind, hukt, hutg]
    simp only [api_update_problem, hfind, hb, Bool.false_eq_true, if_false,
      hupd]
    simp [problemOutOfOrm, hdkt, hdtg, exceptOk]

/-- C8 witness: unknown id is 404, the non-owner and the ownerless case
are 403, the owner's update succeeds. -/
theorem c8_update_ownership_witness :
    api_update_problem 3 emptyStore aliceUser 1 emptyUpdate = .error .notFound
    ∧ api_update_problem 3 db1 bobUser 1 emptyUpdate = .error .forbidden
    ∧ exceptOk (api_update_problem 3 db1 aliceUser 1 emptyUpdate) = true :=
  ⟨(c8_update_ownership 3 emptyStore aliceUser 1 emptyUpdate).1 (by decide),
   (c8_update_ownership 3 db1 bobUser 1 emptyUpdate).2.1
      (sampleProblem (some 1)) (by decide) (by decide),
   (c8_update_ownership 3 db1 aliceUser 1 emptyUpdate).2.2
      (sampleProblem (some 1)) none none (by decide) (by decide) (by decide)
      (by decide) (by decide) (by decide)⟩

/-! ## C7 / C10 — upload validation -/

/-- C7, counterexample: `knowledge_tags="5"` is valid JSON but not a JSON
array; the route does *not* answer 400 — `json.loads` succeeds, and the
failure happens later as a pydantic `ValidationError` escaping the handler
(a 500-level internal error), contradicting "400 whenever the field is
not a valid JSON array". -/
theorem c7_upload_counterexample :
    upload_problem 1 0 emptyStore aliceUser
        { uploadFormBase with knowledgeTags := some [53] }
      = .error .internal
    ∧ RouteError.internal ≠ RouteError.badRequest := by
  exact ⟨by decide, by decide⟩

/-- The helper `loadTagForm` only ever raises the 400 error. -/
theorem loadTagForm_error (v : Option PyStr) (e : RouteError)
    (h : loadTagForm v = .error e) : e = .badRequest := by
  match v with
  | none => simp [loadTagForm] at h
  | some s =>
    by_cases hs : s.isEmpty
    · simp [loadTagForm, hs] at h
    · cases hl : loads s with
      | none =>
        simp [loadTagForm, hs, hl] at h
        exact h.symm
      | some j =>
        simp [loadTagForm, hs, hl] at h

/-- C7 (amended): the upload route answers 400 when neither `raw` nor
`file` is (truthily) supplied, and when a supplied, nonempty tag field
fails to parse as JSON at all; when content is present, the supplied tag
fields load as JSON and validate as string arrays (or `null`/absent), the
upload succeeds.  A tag field holding valid JSON that is *not* an array of
strings is not a 400: it escapes as an internal error (see the
counterexample). -/
theorem c7_upload_validation (newId : Nat) (now : Int) (db : Store)
    (caller : User) (form : UploadForm) :
    (strTruthy form.raw = false → form.file = none →
      upload_problem newId now db caller form = .error .badRequest)
    ∧ (∀ s, form.knowledgeTags = some s → s.isEmpty = false →
        loads s = none →
        (strTruthy form.raw = true ∨ form.file ≠ none) →
        upload_problem newId now db caller form = .error .badRequest)
    ∧ (∀ s, form.tags = some s → s.isEmpty = false → loads s = none →
        (strTruthy form.raw = true ∨ form.file ≠ none) →
        upload_problem newId now db caller form = .error .badRequest)
    ∧ (∀ ktL tgL,
        (strTruthy form.raw = true ∨ form.file ≠ none) →
        formTagStrList form.knowledgeTags = .ok ktL →
        formTagStrList form.tags = .ok tgL →
        optListScalar ktL = true → optListScalar tgL = true →
        exceptOk (upload_problem newId now db caller form) = true) := by
  have guard : ∀ (h : strTruthy form.raw = true ∨ form.file ≠ none),
      (!strTruthy form.raw && form.file.isNone) = false := by
    rintro (h | h)
    · simp [h]
    · have hno : form.file.isNone = false := by
        rcases hf : form.file with _ | f
        · exact absurd hf h
        · rfl
      simp [hno]
  refine ⟨?_, ?_, ?_, ?_⟩
  · intro hraw hfile
    simp [upload_problem, hraw, hfile]
  · intro s hkt hne hl hcontent
    simp only [upload_problem, guard hcontent, Bool.false_eq_true, if_false]
    simp [loadTagForm, hkt, hne, hl]
  · intro s htg hne hl hcontent
    simp only [upload_problem, guard hcontent, Bool.false_eq_true, if_false]
    cases hkt : loadTagForm form.knowledgeTags with
    | error e =>
      simp [hkt, loadTagForm_error _ _ hkt]
    | ok ktJ =>
      simp [hkt, loadTagForm, htg, hne, hl]
  · intro ktL tgL hcontent hckt hctg hsk hst
    simp only [formTagStrList] at hckt hctg
    rcases h1 : loadTagForm form.knowledgeTags with e | ktJ
    · rw [h1] at hckt
      exact absurd hckt (by simp)
    rcases h2 : loadTagForm form.tags with e | tgJ
    · rw [h2] at hctg
      exact absurd hctg (by simp)
    rw [h1] at hckt
    rw [h2] at hctg
    simp only [] at hckt hctg
    simp only [upload_problem, guard hcontent, Bool.false_eq_true, if_false]
    rw [h1, h2]
    simp only [hckt, hctg]
    simp only [create_problem, problemOutOfOrm]
    rw [decodeTags_serialize ktL hsk, decodeTags_serialize tgL hst]
    simp [exceptOk]

/-- C7 witness: the four clauses at concrete inputs — no content is 400,
`knowledge_tags="not json"` is 400, `tags="not json"` is 400, and a fully
valid text upload with tag arrays succeeds. -/
theorem c7_upload_validation_witness :
    upload_problem 1 0 emptyStore aliceUser
        { uploadFormBase with raw := none } = .error .badRequest
    ∧ upload_problem 1 0 emptyStore aliceUser
        { uploadFormBase with
            knowledgeTags := some [110, 111, 116, 32, 106, 115, 111, 110] }
        = .error .badRequest
    ∧ upload_problem 1 0 emptyStore aliceUser
        { uploadFormBase with
            tags := some [110, 111, 116, 32, 106, 115, 111, 110] }
        = .error .badRequest
    ∧ exceptOk (upload_problem 1 0 emptyStore aliceUser
        { uploadFormBase with knowledgeTags := some [91, 34, 97, 34, 93] })
        = true :=
  ⟨(c7_upload_validation 1 0 emptyStore aliceUser
      { uploadFormBase with raw := none }).1 (by decide) (by decide),
   (c7_upload_validation 1 0 emptyStore aliceUser
      { uploadFormBase with
          knowledgeTags := some [110, 111, 116, 32, 106, 115, 111, 110] }).2.1
      [110, 111, 116, 32, 106, 115, 111, 110] (by decide) (by decide)
      (Option.isNone_iff_eq_none.mp (by decide)) (Or.inl (by decide)),
   (c7_upload_validation 1 0 emptyStore aliceUser
      { uploadFormBase with
          tags := some [110, 111, 116, 32, 106, 115, 111, 110] }).2.2.1
      [110, 111, 116, 32, 106, 115, 111, 110] (by decide) (by decide)
      (Option.isNone_iff_eq_none.mp (by decide)) (Or.inl (by decide)),
   (c7_upload_validation 1 0 emptyStore aliceUser
      { uploadFormBase with knowledgeTags := some [91, 34, 97, 34, 93] }).2.2.2
      (some [[97]]) none
      (Or.inl (by decide)) (by decide) (by decide) (by decide) (by decide)⟩

/-- C10: empty-string form fields are treated as absent, not invalid:
`raw=""` with no file is rejected as missing content (400), while
empty-string `knowledge_tags` and `tags` are skipped rather than rejected
as malformed JSON — the upload succeeds and both tag columns are stored
absent. -/
theorem c10_empty_form_fields :
    upload_problem 1 0 emptyStore aliceUser
        { uploadFormBase with raw := some [] } = .error .badRequest
    ∧ upload_problem 1 0 emptyStore aliceUser
        { uploadFormBase with knowledgeTags := some [], tags := some [] }
      = .ok ((create_problem 1 0 emptyStore aliceUser.id c10pin).1, c10out,
             (create_problem 1 0 emptyStore aliceUser.id c10pin).2)
    ∧ (create_problem 1 0 emptyStore aliceUser.id c10pin).1.knowledgeTags = none
    ∧ (create_problem 1 0 emptyStore aliceUser.id c10pin).1.tags = none := by
  exact ⟨by decide, by decide, by decide, by decide⟩
